import Mathlib

/-!
# Verification of the Holon Claude adapter (`images/adapter-claude`)

A shallow embedding, in Lean 4, of the execution-orchestration pipeline of
the Holon Claude adapter: the streaming-event consumption loop, manifest
construction, workspace git baseline, goal extraction from the task spec,
and the permission normalizer.  Each definition is translated from the
Python source (`adapter.py`, `config.py`, `fs_helpers.py`); theorems below
settle the specification's claims about that code.

Conventions of the embedding:
* machine side effects (file writes, chown calls, subprocess runs) are made
  explicit as returned data (lists of performed operations, flags);
* Python exceptions are explicit: a `raised` field (or `Option` error)
  records an exception propagating out of a function, while exceptions that
  the source catches are recorded as caught/logged data;
* the run duration is carried as an opaque rational number: the code only
  copies it into the manifest, no arithmetic on it is modelled.
-/

/-! ## Stream events (adapter.py, lines 143 and 173-188)

The loop inspects each message with `isinstance`: `AssistantMessage`
(whose `content` is a list of blocks, `TextBlock` or `ToolUseBlock`),
`ResultMessage` (with `subtype` and `is_error`), and anything else is
merely logged.  We model the message types as a tagged variant. -/

inductive Block where
  | text (s : String)
  | toolUse (name : String) (input : String)
deriving Repr, DecidableEq

inductive Msg where
  | assistant (content : List Block)
  | result (subtype : String) (isError : Bool)
  | other (desc : String)
deriving Repr, DecidableEq

/-- One entry of the evidence log `evidence/execution.log`: the loop writes
one `Message: {msg}` line per received message, and after the loop a
`--- FINAL OUTPUT ---` block holding the accumulated text
(adapter.py, lines 175 and 188).  We record which entries appear in which
order; the exact textual rendering of a message is not modelled. -/
inductive LogEntry where
  | message (m : Msg)
  | finalOutput (s : String)
deriving Repr, DecidableEq

/-- Text contributed by one assistant message: the concatenation of its
`TextBlock` texts, in order (adapter.py, lines 178-180). -/
def assistantText (content : List Block) : String :=
  content.foldl (fun acc b => match b with | .text s => acc ++ s | _ => acc) ""

/-- State of the streaming loop after consuming the given messages:
`success` (initialised `True` at line 161), the accumulated `final_output`,
and the evidence-log entries written so far.  A `ResultMessage` sets
`success := not is_error` (line 183-184) and `break`s (line 185): the
remaining messages are never consumed. -/
def consume : List Msg → Bool → String → List LogEntry → Bool × String × List LogEntry
  | [], success, acc, log => (success, acc, log)
  | m :: rest, success, acc, log =>
    match m with
    | .assistant content =>
        consume rest success (acc ++ assistantText content) (log ++ [LogEntry.message m])
    | .result _ isErr =>
        ((if isErr then false else success), acc, log ++ [LogEntry.message m])
    | .other _ =>
        consume rest success acc (log ++ [LogEntry.message m])

structure StreamResult where
  success : Bool
  result : String
  log : List LogEntry
deriving Repr, DecidableEq

/-- The streaming phase of `run_adapter` (adapter.py, lines 161-188):
consume the messages starting from `success = True`, `final_output = ""`,
then append the `--- FINAL OUTPUT ---` entry. -/
def runStream (msgs : List Msg) : StreamResult :=
  let r := consume msgs true "" []
  { success := r.1, result := r.2.1, log := r.2.2 ++ [LogEntry.finalOutput r.2.1] }

/-! ## Manifest (adapter.py, lines 210-224 and 254-259) -/

structure MetadataBlock where
  adapter : String
  version : String
deriving Repr, DecidableEq

structure ArtifactRef where
  name : String
  path : String
deriving Repr, DecidableEq

/-- The manifest dictionary written to `manifest.json`.  `Option` fields
record which keys the Python dict carries on each path. -/
structure Manifest where
  metadata : Option MetadataBlock
  status : String
  outcome : String
  duration : Option ℚ
  error : Option String
  artifacts : List ArtifactRef
deriving Repr, DecidableEq

/-- Manifest built on the normal path (adapter.py, lines 211-224). -/
def successPathManifest (success : Bool) (duration : ℚ) : Manifest :=
  { metadata := some { adapter := "claude-code", version := "0.1.0" }
    status := "completed"
    outcome := if success then "success" else "failure"
    duration := some duration
    error := none
    artifacts :=
      [ { name := "diff.patch", path := "diff.patch" },
        { name := "summary.md", path := "summary.md" },
        { name := "evidence", path := "evidence/" } ] }

/-- Manifest built in the `except` handler (adapter.py, lines 255-259):
only `status`, `outcome` and `error` keys. -/
def failurePathManifest (err : String) : Manifest :=
  { metadata := none
    status := "completed"
    outcome := "failure"
    duration := none
    error := some err
    artifacts := [] }

/-! ## The orchestrator's exit paths (adapter.py, lines 163-263)

Everything from `client.connect()` onward runs inside one `try`.  Either
the body completes normally (the stream is consumed, artifacts and the
success-path manifest are written, permissions fixed, the process later
exits 0), or an exception escapes the body before the manifest write
(connection failure, error or cancellation while streaming, diff
subprocess failure): the `except` handler writes only the minimal failure
manifest, fixes permissions and calls `sys.exit(1)`. -/

inductive SessionPhase where
  | completed (msgs : List Msg)
  | raised (err : String)
deriving Repr, DecidableEq

/-- Observable output of one run from session start onward: manifest
writes in order, whether `diff.patch` and `summary.md` were written,
whether `fix_permissions(output_dir)` ran, and the process exit code. -/
structure RunOutput where
  manifests : List Manifest
  diffWritten : Bool
  summaryWritten : Bool
  permissionsFixed : Bool
  exitCode : Nat
deriving Repr, DecidableEq

/-- The two exit paths of `run_adapter` (adapter.py, lines 163-263). -/
def runAdapterFrom (phase : SessionPhase) (duration : ℚ) : RunOutput :=
  match phase with
  | .completed msgs =>
      { manifests := [successPathManifest (runStream msgs).success duration]
        diffWritten := true
        summaryWritten := true
        permissionsFixed := true
        exitCode := 0 }
  | .raised err =>
      { manifests := [failurePathManifest err]
        diffWritten := false
        summaryWritten := false
        permissionsFixed := true
        exitCode := 1 }

/-! ## Spec-side description of the accumulated output

The concatenation, in arrival order, of the text payloads of the
assistant messages of a list.  This is the wording of the specification;
the theorems compare the accumulator of the loop against it. -/

def assistantConcat : List Msg → String
  | [] => ""
  | .assistant c :: rest => assistantText c ++ assistantConcat rest
  | _ :: rest => assistantConcat rest

def isResult : Msg → Bool
  | .result _ _ => true
  | _ => false

def hasResult (msgs : List Msg) : Bool :=
  msgs.any isResult

/-! ## Workspace git baseline (adapter.py, lines 91-113)

`run_adapter` checks `os.path.exists(".git")`.  When absent it runs
`git init`, appends ignore patterns to `.gitignore`, stages everything and
commits with the fixed message `holon-baseline`; when present it performs
no workspace operation at all (only a log line).  The global `git config`
calls (lines 99-101) touch global git configuration, not the workspace,
and are not part of the workspace state. -/

structure GitWorkspace where
  hasGit : Bool
  commits : List String
  ignoreAppends : Nat
deriving Repr, DecidableEq

def workspaceBaseline (w : GitWorkspace) : GitWorkspace :=
  if w.hasGit then w
  else
    { hasGit := true
      commits := w.commits ++ ["holon-baseline"]
      ignoreAppends := w.ignoreAppends + 1 }

/-! ## Task-spec goal extraction (adapter.py, lines 59-63)

`spec.get("goal", "")`; a `dict` value yields `goal_val.get("description", "")`
unchanged (not stringified), any other value is passed through `str()`.
YAML scalar/mapping values are modelled by `PyVal`. -/

inductive PyVal where
  | str (s : String)
  | int (n : Int)
  | bool (b : Bool)
  | pyNone
  | dict (kvs : List (String × PyVal))
deriving Repr

/-- The single-quote character, used by the Python `repr` of strings. -/
def singleQuote : String := (Char.ofNat 39).toString

mutual

/-- Python `repr` of a value.  Escaping of special characters inside
strings is not modelled; `extractGoal` below never reaches the `str` or
`dict` cases of `pyRepr` (a `str` goal is returned by `str()` unchanged
and a `dict` goal is matched before `str()` is called). -/
def pyRepr : PyVal → String
  | .str s => singleQuote ++ s ++ singleQuote
  | .int n => toString n
  | .bool b => if b then "True" else "False"
  | .pyNone => "None"
  | .dict kvs => "\x7b" ++ pyReprEntries kvs ++ "\x7d"

def pyReprEntries : List (String × PyVal) → String
  | [] => ""
  | [kv] => singleQuote ++ kv.1 ++ singleQuote ++ ": " ++ pyRepr kv.2
  | kv :: rest => singleQuote ++ kv.1 ++ singleQuote ++ ": " ++ pyRepr kv.2 ++ ", " ++ pyReprEntries rest

end

/-- Python `str()`: the identity on strings, `repr` otherwise. -/
def pyStr : PyVal → String
  | .str s => s
  | v => pyRepr v

/-- Python `dict.get(key)` over an association list with distinct keys. -/
def dictGet : List (String × PyVal) → String → Option PyVal
  | [], _ => none
  | kv :: rest, key => if kv.1 = key then some kv.2 else dictGet rest key

/-- Lines 59-63 of adapter.py: coerce the `goal` field to the value bound
to the Python variable `goal`. -/
def extractGoal (spec : List (String × PyVal)) : PyVal :=
  match (dictGet spec "goal").getD (PyVal.str "") with
  | .dict kvs => (dictGet kvs "description").getD (PyVal.str "")
  | v => PyVal.str (pyStr v)

/-! ## Permission normalizer (adapter.py lines 12-38, fs_helpers.py lines 73-112)

The file-system side is explicit: the directory tree is given as the
`os.walk` output (a list of `(root, dirs, files)` triples, `os.walk`
itself being external), and `chown` as an oracle `chownOk` telling which
paths `os.chown` succeeds on (`false` meaning it raises).  The result
records the entries re-owned in order, a caught-and-logged exception if
any, and an exception propagating to the caller if any. -/

def joinPath (root name : String) : String := root ++ "/" ++ name

/-- Chown order of the `os.walk` loop (adapter.py lines 32-36): for each
triple, the directories then the files, joined to the root. -/
def walkEntries (walk : List (String × List String × List String)) : List String :=
  (walk.map (fun rdf => rdf.2.1.map (joinPath rdf.1) ++ rdf.2.2.map (joinPath rdf.1))).flatten

/-- One `os.chown` per path, in order, inside a single `try`: the first
failing path raises, so no later path is attempted.  Returns the paths
re-owned and the failing path, if any. -/
def chownSeq (chownOk : String → Bool) : List String → List String × Option String
  | [] => ([], none)
  | p :: ps =>
    if chownOk p then
      let r := chownSeq chownOk ps
      (p :: r.1, r.2)
    else ([], some p)

structure FixResult where
  chowned : List String
  caught : Option String
  raised : Option String
deriving Repr, DecidableEq

/-- Python `str.strip()` on ASCII whitespace, as `int()` applies it. -/
def pyStrip (s : String) : String :=
  ⟨((s.data.dropWhile Char.isWhitespace).reverse.dropWhile Char.isWhitespace).reverse⟩

def digitVal (c : Char) : Nat := c.toNat - 48

/-- Digits after the first, allowing single underscores between digits,
per the Python integer-literal grammar accepted by `int(str)`. -/
def pyDigitsAux : List Char → Nat → Option Nat
  | [], acc => some acc
  | '_' :: c :: rest, acc =>
    if c.isDigit then pyDigitsAux rest (acc * 10 + digitVal c) else none
  | ['_'], _ => none
  | c :: rest, acc =>
    if c.isDigit then pyDigitsAux rest (acc * 10 + digitVal c) else none

/-- Python `int(str)`: strip surrounding whitespace, optional sign, base-10
digits with single underscores between digits; `None` models the
`ValueError` raise.  (Unicode digits are not modelled.) -/
def pyParseInt (s : String) : Option Int :=
  match (pyStrip s).data with
  | [] => none
  | c :: rest =>
    if c = '+' then
      match rest with
      | [] => none
      | d :: ds => if d.isDigit then (pyDigitsAux ds (digitVal d)).map (fun n => (n : Int)) else none
    else if c = '-' then
      match rest with
      | [] => none
      | d :: ds => if d.isDigit then (pyDigitsAux ds (digitVal d)).map (fun n => -(n : Int)) else none
    else if c.isDigit then (pyDigitsAux rest (digitVal c)).map (fun n => (n : Int))
    else none

/-- `fix_permissions` of adapter.py (lines 12-38).  `uidStr`/`gidStr` are
`os.environ.get("HOST_UID")` / `("HOST_GID")`.  An absent or empty value
returns early (line 20, Python truthiness).  Everything else, including
the two `int()` calls, runs inside one `try` whose `except` only prints a
warning, so nothing ever propagates (`raised = none`): an unparsable value
is caught as a `ValueError` before any chown, and a chown failure is
caught after the prefix of the traversal preceding it. -/
def fix_permissions (uidStr gidStr : Option String) (directory : String)
    (walk : List (String × List String × List String)) (chownOk : String → Bool) : FixResult :=
  if uidStr.getD "" = "" ∨ gidStr.getD "" = "" then
    { chowned := [], caught := none, raised := none }
  else
    match pyParseInt (uidStr.getD ""), pyParseInt (gidStr.getD "") with
    | some _, some _ =>
      let r := chownSeq chownOk (directory :: walkEntries walk)
      { chowned := r.1, caught := r.2, raised := none }
    | _, _ => { chowned := [], caught := some "ValueError", raised := none }

/-- `uid = int(uid_str) if uid_str else None` (fs_helpers.py lines 88-94):
outside any `try`, so an unparsable nonempty value raises `ValueError` to
the caller. -/
def parseIdOpt (so : Option String) : Except String (Option Int) :=
  match so with
  | none => Except.ok none
  | some s =>
    if s = "" then Except.ok none
    else
      match pyParseInt s with
      | some n => Except.ok (some n)
      | none => Except.error "ValueError"

/-- `PermissionFixer.fix_permissions` of fs_helpers.py (lines 79-112),
called with `uid = None, gid = None` so both identities come from the
environment.  `int()` on `uid_str` runs first, then on `gid_str`, both
outside the `try`; only the chown traversal is guarded by it. -/
def PermissionFixer_fix_permissions (uidStr gidStr : Option String) (directory : String)
    (walk : List (String × List String × List String)) (chownOk : String → Bool) : FixResult :=
  match parseIdOpt uidStr with
  | .error e => { chowned := [], caught := none, raised := some e }
  | .ok uid =>
    match parseIdOpt gidStr with
    | .error e => { chowned := [], caught := none, raised := some e }
    | .ok gid =>
      match uid, gid with
      | some _, some _ =>
        let r := chownSeq chownOk (directory :: walkEntries walk)
        { chowned := r.1, caught := r.2, raised := none }
      | _, _ => { chowned := [], caught := none, raised := none }

/-! ## Helper lemmas -/

theorem str_append_assoc (a b c : String) : a ++ b ++ c = a ++ (b ++ c) := by
  apply String.ext
  simp [String.data_append, List.append_assoc]

theorem str_append_empty (a : String) : a ++ "" = a := by
  apply String.ext
  simp [String.data_append]

theorem str_empty_append (a : String) : "" ++ a = a := by
  apply String.ext
  simp [String.data_append]

theorem hasResult_cons (m : Msg) (rest : List Msg) :
    hasResult (m :: rest) = (isResult m || hasResult rest) := by
  simp [hasResult, List.any]

/-- Core loop lemma: consuming a result-free prefix folds its assistant
text onto the accumulator and appends its log entries, then continues. -/
theorem consume_split (pre : List Msg) (h : hasResult pre = false)
    (rest : List Msg) (success : Bool) (acc : String) (log : List LogEntry) :
    consume (pre ++ rest) success acc log
      = consume rest success (acc ++ assistantConcat pre) (log ++ pre.map LogEntry.message) := by
  induction pre generalizing acc log with
  | nil => simp [assistantConcat, str_append_empty]
  | cons m pre ih =>
    rw [hasResult_cons] at h
    cases m with
    | assistant c =>
      have h2 : hasResult pre = false := by simpa [isResult] using h
      simp only [List.cons_append, consume, List.append_eq]
      rw [ih h2, str_append_assoc]
      simp [assistantConcat, List.append_assoc]
    | result s e =>
      simp [isResult] at h
    | other d =>
      have h2 : hasResult pre = false := by simpa [isResult] using h
      simp only [List.cons_append, consume, List.append_eq]
      rw [ih h2]
      simp [assistantConcat, List.append_assoc]

theorem consume_no_result (msgs : List Msg) (h : hasResult msgs = false)
    (success : Bool) (acc : String) (log : List LogEntry) :
    consume msgs success acc log
      = (success, acc ++ assistantConcat msgs, log ++ msgs.map LogEntry.message) := by
  have := consume_split msgs h [] success acc log
  simpa [consume] using this

/-- The guarded chown traversal re-owns exactly the prefix of the entry
sequence preceding its first failure, and catches that failure. -/
theorem chownSeq_eq (ok : String → Bool) (l : List String) :
    chownSeq ok l = (l.takeWhile ok, l.find? (fun p => !ok p)) := by
  induction l with
  | nil => simp [chownSeq]
  | cons p ps ih =>
    by_cases h : ok p
    · simp [chownSeq, h, ih, List.takeWhile_cons, List.find?]
    · simp [chownSeq, h, List.takeWhile_cons, List.find?]

/-- Consuming a stream whose first `ResultMessage` follows a result-free
prefix: the loop accumulates the prefix text and log entries, records
`success = not is_error`, and never touches the messages after the result. -/
theorem consume_until_result (pre post : List Msg) (s : String) (e : Bool)
    (h : hasResult pre = false) :
    consume (pre ++ Msg.result s e :: post) true "" []
      = ((if e then false else true), assistantConcat pre,
          pre.map LogEntry.message ++ [LogEntry.message (Msg.result s e)]) := by
  rw [consume_split pre h]
  simp [consume, str_empty_append]

/-! ## Claim theorems -/

/-- Claim C1 (code_bug evidence): the specification requires that a run
with no stream events within the idle-timeout window be aborted as failed,
with heartbeat notifications while waiting; the code implements no idle
timeout, no total timeout and no heartbeat (the config accessors for the
three durations are never called, and the loop waits on the next event
unconditionally).  Evaluating the embedded code at the failing input — a
session delivering zero events — the run ends with outcome `success`, not
`failure`; the evidence log indeed contains no `AssistantText` entries
(only the final-output footer). -/
theorem c1_zero_events_end_in_success :
    runStream [] = { success := true, result := "", log := [LogEntry.finalOutput ""] } ∧
    (runAdapterFrom (SessionPhase.completed []) 1800).manifests
      = [successPathManifest true 1800] ∧
    (successPathManifest true 1800).outcome = "success" :=
  ⟨rfl, rfl, rfl⟩

/-- Claim C2 (counterexample): a chown failure on a single entry does
abort the rest of the traversal.  With host identity `1000:1000` and a
tree of three files where chown fails on the second, the third file is
never re-owned; the failure is only caught and logged (nothing raised). -/
theorem c2_single_failure_aborts_traversal :
    (fix_permissions (some "1000") (some "1000") "/holon/output"
        [("/holon/output", [], ["a", "b", "c"])] (fun p => p ≠ "/holon/output/b")).raised
      = none ∧
    (fix_permissions (some "1000") (some "1000") "/holon/output"
        [("/holon/output", [], ["a", "b", "c"])] (fun p => p ≠ "/holon/output/b")).caught
      = some "/holon/output/b" ∧
    (fix_permissions (some "1000") (some "1000") "/holon/output"
        [("/holon/output", [], ["a", "b", "c"])] (fun p => p ≠ "/holon/output/b")).chowned
      = ["/holon/output", "/holon/output/a"] ∧
    "/holon/output/c" ∉
      (fix_permissions (some "1000") (some "1000") "/holon/output"
        [("/holon/output", [], ["a", "b", "c"])] (fun p => p ≠ "/holon/output/b")).chowned := by
  decide

/-- Claim C2 (amended): with a configured, parsable host uid and gid, a
chown failure on a single entry never propagates to the caller (it is
caught and logged), but it stops the traversal: exactly the prefix of the
entry sequence before the first failing entry is re-owned, and the
remaining entries are not visited. -/
theorem c2_failure_caught_but_traversal_stops (uidStr gidStr : Option String)
    (dir : String) (walk : List (String × List String × List String))
    (ok : String → Bool) (u g : Int)
    (hu : uidStr.getD "" ≠ "") (hg : gidStr.getD "" ≠ "")
    (hpu : pyParseInt (uidStr.getD "") = some u)
    (hpg : pyParseInt (gidStr.getD "") = some g) :
    (fix_permissions uidStr gidStr dir walk ok).raised = none ∧
    (fix_permissions uidStr gidStr dir walk ok).chowned
      = (dir :: walkEntries walk).takeWhile ok ∧
    (fix_permissions uidStr gidStr dir walk ok).caught
      = (dir :: walkEntries walk).find? (fun p => !ok p) := by
  have hcond : ¬(uidStr.getD "" = "" ∨ gidStr.getD "" = "") := by
    rintro (h | h)
    · exact hu h
    · exact hg h
  simp [fix_permissions, hcond, hpu, hpg, chownSeq_eq]

/-- Claim C2 witness: the amended theorem applied at a concrete input. -/
theorem c2_failure_caught_but_traversal_stops_witness :
    ((some "1000" : Option String).getD "" ≠ "") ∧
    pyParseInt "1000" = some 1000 ∧
    (fix_permissions (some "1000") (some "1000") "/o" [("/o", [], ["a"])]
        (fun _ => true)).chowned = ["/o", "/o/a"] := by
  refine ⟨by decide, by decide, ?_⟩
  have h := c2_failure_caught_but_traversal_stops (some "1000") (some "1000") "/o"
    [("/o", [], ["a"])] (fun _ => true) 1000 1000 (by decide) (by decide) (by decide) (by decide)
  rw [h.2.1]
  decide

/-- Claim C3 (counterexample): the manifest written on the failure exit
path carries no metadata block, no duration and no artifact list. -/
theorem c3_failure_manifest_lacks_fields :
    (runAdapterFrom (SessionPhase.raised "boom") 0).manifests = [failurePathManifest "boom"] ∧
    (failurePathManifest "boom").metadata = none ∧
    (failurePathManifest "boom").duration = none ∧
    (failurePathManifest "boom").artifacts = [] :=
  ⟨rfl, rfl, rfl, rfl⟩

/-- Claim C3 (amended): on every exit path exactly one manifest is
written, and every written manifest has status `completed` and outcome
`success` or `failure`; the metadata block, the duration and the artifact
list referencing patch, summary and evidence directory are present on the
success exit path only (the failure-path manifest carries just status,
outcome and error). -/
theorem c3_manifest_on_every_exit_path (phase : SessionPhase) (d : ℚ) :
    (runAdapterFrom phase d).manifests.length = 1 ∧
    (∀ m ∈ (runAdapterFrom phase d).manifests,
        m.status = "completed" ∧ (m.outcome = "success" ∨ m.outcome = "failure")) ∧
    (∀ msgs, phase = SessionPhase.completed msgs →
        (runAdapterFrom phase d).manifests
          = [successPathManifest (runStream msgs).success d] ∧
        (successPathManifest (runStream msgs).success d).metadata
          = some { adapter := "claude-code", version := "0.1.0" } ∧
        (successPathManifest (runStream msgs).success d).duration = some d ∧
        (successPathManifest (runStream msgs).success d).artifacts
          = [{ name := "diff.patch", path := "diff.patch" },
             { name := "summary.md", path := "summary.md" },
             { name := "evidence", path := "evidence/" }]) := by
  refine ⟨?_, ?_, ?_⟩
  · cases phase <;> rfl
  · intro m hm
    cases phase with
    | completed msgs =>
      simp only [runAdapterFrom, List.mem_singleton] at hm
      subst hm
      refine ⟨rfl, ?_⟩
      cases hsucc : (runStream msgs).success <;> simp [successPathManifest, hsucc]
    | raised err =>
      simp only [runAdapterFrom, List.mem_singleton] at hm
      subst hm
      exact ⟨rfl, Or.inr rfl⟩
  · intro msgs hphase
    subst hphase
    exact ⟨rfl, rfl, rfl, rfl⟩

/-- Claim C3 witness: the amended theorem applied on both exit paths. -/
theorem c3_manifest_on_every_exit_path_witness :
    (runAdapterFrom (SessionPhase.raised "x") 0).manifests.length = 1 ∧
    (failurePathManifest "x").status = "completed" ∧
    ((failurePathManifest "x").outcome = "success" ∨ (failurePathManifest "x").outcome = "failure") ∧
    (runAdapterFrom (SessionPhase.completed []) 0).manifests = [successPathManifest true 0] := by
  have h1 := c3_manifest_on_every_exit_path (SessionPhase.raised "x") 0
  have h2 := (c3_manifest_on_every_exit_path (SessionPhase.completed []) 0).2.2 [] rfl
  have h3 := h1.2.1 (failurePathManifest "x") (by simp [runAdapterFrom])
  exact ⟨h1.1, h3.1, h3.2, h2.1⟩

/-- Claim C4: with a terminal `Result` event present, consumption stops at
it (the queued events after it are discarded: the run result is
indistinguishable from one where they never arrive), `success` is the
negation of `isError`, and the manifest outcome is `success` iff the
result reported no error. -/
theorem c4_result_decides_outcome (pre post : List Msg) (s : String) (e : Bool) (d : ℚ)
    (h : hasResult pre = false) :
    runStream (pre ++ Msg.result s e :: post) = runStream (pre ++ [Msg.result s e]) ∧
    (runStream (pre ++ Msg.result s e :: post)).success = !e ∧
    (runAdapterFrom (SessionPhase.completed (pre ++ Msg.result s e :: post)) d).manifests
      = [successPathManifest (!e) d] ∧
    ((successPathManifest (!e) d).outcome = "success" ↔ e = false) := by
  have key := consume_until_result pre post s e h
  have key2 := consume_until_result pre [] s e h
  refine ⟨?_, ?_, ?_, ?_⟩
  · simp only [runStream, key, key2]
  · simp only [runStream, key]
    cases e <;> rfl
  · simp only [runAdapterFrom, runStream, key]
    cases e <;> rfl
  · cases e <;> simp [successPathManifest]

/-- Claim C4 witness: a concrete stream with one assistant message, a
non-error result, and one queued message after the result. -/
theorem c4_result_decides_outcome_witness :
    hasResult [Msg.assistant [Block.text "hi"]] = false ∧
    runStream ([Msg.assistant [Block.text "hi"]] ++ Msg.result "ok" false :: [Msg.other "late"])
      = runStream ([Msg.assistant [Block.text "hi"]] ++ [Msg.result "ok" false]) ∧
    ((successPathManifest (!false) 0).outcome = "success" ↔ false = false) := by
  refine ⟨by decide, ?_, ?_⟩
  · exact (c4_result_decides_outcome [Msg.assistant [Block.text "hi"]] [Msg.other "late"]
      "ok" false 0 (by decide)).1
  · exact (c4_result_decides_outcome [Msg.assistant [Block.text "hi"]] [Msg.other "late"]
      "ok" false 0 (by decide)).2.2.2

/-- Claim C5 (counterexample): on a session error the code writes only the
failure manifest: no `diff.patch` and no `summary.md` are produced. -/
theorem c5_session_error_skips_artifacts :
    (runAdapterFrom (SessionPhase.raised "Connection failed") 0).diffWritten = false ∧
    (runAdapterFrom (SessionPhase.raised "Connection failed") 0).summaryWritten = false ∧
    (runAdapterFrom (SessionPhase.raised "Connection failed") 0).manifests
      = [failurePathManifest "Connection failed"] :=
  ⟨rfl, rfl, rfl⟩

/-- Claim C5 (amended): every session error (connection failure, stream
exception, cancellation) is caught at the orchestrator boundary and turned
into a failure manifest write plus a permission fix — not an uncontrolled
termination — but artifact generation does not proceed: no `diff.patch`
and no `summary.md` are written, and the process exits with code 1. -/
theorem c5_session_error_recovery (e : String) (d : ℚ) :
    runAdapterFrom (SessionPhase.raised e) d
      = { manifests := [failurePathManifest e]
          diffWritten := false
          summaryWritten := false
          permissionsFixed := true
          exitCode := 1 } :=
  rfl

/-- Claim C6: if the stream is exhausted without any terminal `Result`
event, `success` remains `true`: the manifest records outcome `success`
and the accumulated text becomes the result. -/
theorem c6_exhaustion_keeps_success (msgs : List Msg) (d : ℚ)
    (h : hasResult msgs = false) :
    (runStream msgs).success = true ∧
    (runStream msgs).result = assistantConcat msgs ∧
    (runAdapterFrom (SessionPhase.completed msgs) d).manifests
      = [successPathManifest true d] ∧
    (successPathManifest true d).outcome = "success" := by
  have key := consume_no_result msgs h true "" []
  refine ⟨?_, ?_, ?_, rfl⟩
  · simp [runStream, key]
  · simp [runStream, key, str_empty_append]
  · simp [runAdapterFrom, runStream, key]

/-- Claim C6 witness: a stream with one assistant message and one ignored
message, ending without a result. -/
theorem c6_exhaustion_keeps_success_witness :
    hasResult [Msg.assistant [Block.text "done"], Msg.other "sys"] = false ∧
    (runStream [Msg.assistant [Block.text "done"], Msg.other "sys"]).success = true ∧
    (runStream [Msg.assistant [Block.text "done"], Msg.other "sys"]).result
      = assistantConcat [Msg.assistant [Block.text "done"], Msg.other "sys"] := by
  refine ⟨by decide, ?_, ?_⟩
  · exact (c6_exhaustion_keeps_success [Msg.assistant [Block.text "done"], Msg.other "sys"]
      0 (by decide)).1
  · exact (c6_exhaustion_keeps_success [Msg.assistant [Block.text "done"], Msg.other "sys"]
      0 (by decide)).2.1

/-- Claim C7: for a stream ending in a terminal `Result`, the accumulated
output is the concatenation, in arrival order, of the text payloads of the
assistant messages before the result, and the evidence log holds exactly
the consumed events, in arrival order, followed by the final-output
footer. -/
theorem c7_arrival_order (pre post : List Msg) (s : String) (e : Bool)
    (h : hasResult pre = false) :
    (runStream (pre ++ Msg.result s e :: post)).result = assistantConcat pre ∧
    (runStream (pre ++ Msg.result s e :: post)).log
      = (pre ++ [Msg.result s e]).map LogEntry.message
          ++ [LogEntry.finalOutput (assistantConcat pre)] := by
  have key := consume_until_result pre post s e h
  constructor
  · simp [runStream, key]
  · simp [runStream, key, List.map_append]

/-- Claim C7 witness: two assistant messages then an error-free result. -/
theorem c7_arrival_order_witness :
    hasResult [Msg.assistant [Block.text "Creating file"], Msg.assistant [Block.text "Done"]]
      = false ∧
    (runStream ([Msg.assistant [Block.text "Creating file"], Msg.assistant [Block.text "Done"]]
        ++ Msg.result "ok" false :: [])).result
      = assistantConcat [Msg.assistant [Block.text "Creating file"],
          Msg.assistant [Block.text "Done"]] := by
  refine ⟨by decide, ?_⟩
  exact (c7_arrival_order [Msg.assistant [Block.text "Creating file"],
    Msg.assistant [Block.text "Done"]] [] "ok" false (by decide)).1

/-- Claim C8: running the workspace baseline on a workspace whose git
metadata already exists performs no structural change (the state is
returned unchanged, so in particular no additional commit is created), and
the baseline step is idempotent. -/
theorem c8_baseline_idempotent (w : GitWorkspace) :
    (w.hasGit = true → workspaceBaseline w = w) ∧
    (w.hasGit = true → (workspaceBaseline w).commits = w.commits) ∧
    workspaceBaseline (workspaceBaseline w) = workspaceBaseline w := by
  refine ⟨?_, ?_, ?_⟩
  · intro h
    simp [workspaceBaseline, h]
  · intro h
    simp [workspaceBaseline, h]
  · by_cases h : w.hasGit = true <;> simp [workspaceBaseline, h]

/-- Claim C8 witness: a workspace with existing git metadata and one
commit is left untouched. -/
theorem c8_baseline_idempotent_witness :
    workspaceBaseline { hasGit := true, commits := ["c0"], ignoreAppends := 0 }
      = { hasGit := true, commits := ["c0"], ignoreAppends := 0 } :=
  (c8_baseline_idempotent { hasGit := true, commits := ["c0"], ignoreAppends := 0 }).1 rfl

/-- Claim C9: goal extraction returns a plain-string goal unchanged,
returns the `description` entry of a mapping goal, and stringifies any
other value. -/
theorem c9_goal_extraction (spec : List (String × PyVal)) :
    (∀ s, dictGet spec "goal" = some (PyVal.str s) → extractGoal spec = PyVal.str s) ∧
    (∀ kvs dsc, dictGet spec "goal" = some (PyVal.dict kvs) →
        dictGet kvs "description" = some (PyVal.str dsc) →
        extractGoal spec = PyVal.str dsc) ∧
    (∀ v, dictGet spec "goal" = some v → (∀ kvs, v ≠ PyVal.dict kvs) →
        extractGoal spec = PyVal.str (pyStr v)) := by
  refine ⟨?_, ?_, ?_⟩
  · intro s hs
    simp [extractGoal, hs, pyStr]
  · intro kvs dsc hg hd
    simp [extractGoal, hg, hd]
  · intro v hv hnd
    cases v with
    | dict kvs => exact absurd rfl (hnd kvs)
    | str s => simp [extractGoal, hv, pyStr]
    | int n => simp [extractGoal, hv, pyStr]
    | bool b => simp [extractGoal, hv, pyStr]
    | pyNone => simp [extractGoal, hv, pyStr]

/-- Claim C9 witness: a plain-string goal, a mapping goal, and an integer
goal. -/
theorem c9_goal_extraction_witness :
    extractGoal [("goal", PyVal.str "Add a README")] = PyVal.str "Add a README" ∧
    extractGoal [("goal", PyVal.dict [("description", PyVal.str "Fix bug")])]
      = PyVal.str "Fix bug" ∧
    extractGoal [("goal", PyVal.int 7)] = PyVal.str "7" := by
  refine ⟨?_, ?_, ?_⟩
  · exact (c9_goal_extraction [("goal", PyVal.str "Add a README")]).1 "Add a README" rfl
  · exact (c9_goal_extraction [("goal", PyVal.dict [("description", PyVal.str "Fix bug")])]).2.1
      [("description", PyVal.str "Fix bug")] "Fix bug" rfl rfl
  · exact (c9_goal_extraction [("goal", PyVal.int 7)]).2.2 (PyVal.int 7) rfl
      (fun kvs hk => by cases hk)

/-- Claim C10 (counterexample): `PermissionFixer.fix_permissions` with a
present but unparsable `HOST_UID` raises `ValueError` to its caller — it
is not a no-op that raises nothing. -/
theorem c10_helper_raises_on_unparsable :
    (PermissionFixer_fix_permissions (some "12x") (some "0") "/holon/output" []
        (fun _ => true)).raised = some "ValueError" ∧
    (PermissionFixer_fix_permissions (some "12x") (some "0") "/holon/output" []
        (fun _ => true)).chowned = [] := by
  decide

/-- Claim C10 (amended): the `fix_permissions` of adapter.py performs no
ownership change and raises nothing when either identity value is absent
or empty, and likewise when either is unparsable (the `ValueError` is
caught inside its handler); `PermissionFixer.fix_permissions` of
fs_helpers.py performs no ownership change and raises nothing when both
values parse and either is absent or empty, but propagates `ValueError`
(still with no ownership change) when a present, nonempty value is
unparsable. -/
theorem c10_identity_guard (uidStr gidStr : Option String) (dir : String)
    (walk : List (String × List String × List String)) (ok : String → Bool) :
    (uidStr.getD "" = "" ∨ gidStr.getD "" = "" →
        fix_permissions uidStr gidStr dir walk ok
          = { chowned := [], caught := none, raised := none }) ∧
    (pyParseInt (uidStr.getD "") = none ∨ pyParseInt (gidStr.getD "") = none →
        (fix_permissions uidStr gidStr dir walk ok).chowned = [] ∧
        (fix_permissions uidStr gidStr dir walk ok).raised = none) ∧
    (∀ u g : Option Int, parseIdOpt uidStr = Except.ok u → parseIdOpt gidStr = Except.ok g →
        (u = none ∨ g = none) →
        PermissionFixer_fix_permissions uidStr gidStr dir walk ok
          = { chowned := [], caught := none, raised := none }) ∧
    (∀ e, parseIdOpt uidStr = Except.error e →
        (PermissionFixer_fix_permissions uidStr gidStr dir walk ok).chowned = [] ∧
        (PermissionFixer_fix_permissions uidStr gidStr dir walk ok).raised = some e) ∧
    (∀ u e, parseIdOpt uidStr = Except.ok u → parseIdOpt gidStr = Except.error e →
        (PermissionFixer_fix_permissions uidStr gidStr dir walk ok).chowned = [] ∧
        (PermissionFixer_fix_permissions uidStr gidStr dir walk ok).raised = some e) := by
  refine ⟨?_, ?_, ?_, ?_, ?_⟩
  · intro h
    simp [fix_permissions, h]
  · intro h
    by_cases hc : uidStr.getD "" = "" ∨ gidStr.getD "" = ""
    · simp [fix_permissions, hc]
    · rcases h with h | h
      · cases hg2 : pyParseInt (gidStr.getD "") <;>
          simp [fix_permissions, hc, h, hg2]
      · cases hu2 : pyParseInt (uidStr.getD "") <;>
          simp [fix_permissions, hc, h, hu2]
  · intro u g hu hg hng
    simp only [PermissionFixer_fix_permissions, hu, hg]
    rcases hng with h | h
    · subst h
      rfl
    · subst h
      cases u <;> rfl
  · intro e he
    simp [PermissionFixer_fix_permissions, he]
  · intro u e hu he
    simp [PermissionFixer_fix_permissions, hu, he]

/-- Claim C10 witness: the amended theorem applied with an absent uid, an
unparsable uid, and absent values in the helper. -/
theorem c10_identity_guard_witness :
    fix_permissions none (some "1000") "/o" [] (fun _ => true)
      = { chowned := [], caught := none, raised := none } ∧
    (fix_permissions (some "9z") (some "1000") "/o" [] (fun _ => true)).chowned = [] ∧
    (fix_permissions (some "9z") (some "1000") "/o" [] (fun _ => true)).raised = none ∧
    PermissionFixer_fix_permissions none none "/o" [] (fun _ => true)
      = { chowned := [], caught := none, raised := none } := by
  refine ⟨?_, ?_, ?_, ?_⟩
  · exact (c10_identity_guard none (some "1000") "/o" [] (fun _ => true)).1
      (Or.inl (by decide))
  · exact ((c10_identity_guard (some "9z") (some "1000") "/o" [] (fun _ => true)).2.1
      (Or.inl (by decide))).1
  · exact ((c10_identity_guard (some "9z") (some "1000") "/o" [] (fun _ => true)).2.1
      (Or.inl (by decide))).2
  · exact (c10_identity_guard none none "/o" [] (fun _ => true)).2.2.1 none none rfl rfl
      (Or.inl rfl)
